import Mathlib

/-
Verification of the whistle log-monitoring pipeline (src/whistle).

Shallow embedding notes, function by function:

* `analyze_log` (src/whistle/llm.py, lines 16-84) is embedded as
  `Whistle.analyzeLog`.  The external pieces are parameters:
  - `matcher : String → String → Bool` stands for Python's
    `re.search(pattern, text) is not None`.  The code never inspects the
    regex itself, it only calls `re.search`, so the matcher is abstract;
    concrete witnesses instantiate it with literal-substring search
    (`substrMatch`), which agrees with `re.search` on patterns that
    contain no regex metacharacters.
  - `oracleFn : String → OracleOutcome` stands for the whole try-block up
    to `json.loads` (OpenAI client construction, the network call, and
    JSON parsing of the reply), as a function of the user-message text
    that is submitted.  `OracleOutcome.failure msg` is any exception
    raised there (its `str`), `OracleOutcome.success a` a parsed JSON
    object.  The system prompt and `custom_rules` (llm.py lines 38-43)
    only change the prompt text, which no claim observes, so they are not
    modelled; the oracle outcome may depend arbitrarily on the submitted
    entry and is universally quantified in every theorem.
  - Python raising an exception out of `analyze_log` is `Except.error`;
    the one such path reachable in the model is the `KeyError` of line 45
    (`config['llm_max_log_length']` on a dict without that key).

* Python dicts with optional keys become structures of `Option` fields.
  For the analysis dict the distinction between an absent key and a key
  present with JSON null matters for both `ignore_regex` (the
  required-keys check of line 63 accepts a present null) and
  `ignore_regex_name` (the `dict.get(key, default)` of
  `__main__.py` line 364 falls back only on an absent key — a present
  null passes through and names the new rule None), hence both are
  `Option (Option String)`: outer `Option` is key presence, inner the
  null-or-string value.  Consequently a rule's `name` is
  `Option String` (`none` = Python None / JSON null: producible by the
  batch learn step under a present-null suggested name, or by a
  hand-edited config file); `ignore add` and the live learn step always
  produce `some`-names.  Python's f-string rendering of such a value
  (`str(None)` is the text None) is `pyFormat`.  Python truthiness of
  strings (`None` and `""` are falsy) is `truthyStr` / explicit
  `== ""` tests.

* `config.py`: `load_config` is `Whistle.load_config`; the file system is
  a parameter `file : Option Config` (= the parsed content of the config
  file when it exists).  `json.load` performs no validation beyond JSON
  well-formedness, so a present file is returned verbatim.  The `alert`
  and `log` sections of the config dict are omitted from `Config`: none
  of the modelled operations reads them.

* `__main__.py`: `ignore_add` (lines 178-189) is `Whistle.ignore_add`
  (click.Abort on a duplicate name is `Except.error`).  The learning step
  of the `analyze` loop (lines 360-377) is `analyzeLearnStep`, of the
  `monitor` loop (lines 426-441) `monitorLearnStep`; `int(time.time())`
  is a parameter `t : Nat`.  Persistence (`save_config`) only snapshots
  the list these steps produce and is not modelled separately.

* Python string slicing `s[:k]` (with its negative-index clamping
  semantics) is `pySlicePrefix`.
-/

namespace Whistle

/-- One record of the persisted `ignore` list: `{name, regex, comment?}`.
`name` is `Option String` because the stored JSON value can be null:
`__main__.py` line 364 copies a present-but-null suggested name into the
new rule verbatim (`dict.get` only defaults on an absent key).  `none`
is that JSON null; `ignore add` and the live-path learn step always
store `some`-names. -/
structure Rule where
  name : Option String
  regex : String
  comment : Option String := none
  deriving DecidableEq, Repr

/-- The `llm` section of the config dict (config.py DEFAULT_CONFIG). -/
structure LLMConfig where
  base_url : Option String := none
  api_key : Option String := none
  model : Option String := none
  deriving DecidableEq, Repr

/-- The configuration dict, restricted to the keys the modelled code reads:
`llm`, the optional top-level `llm_max_log_length`, and the optional
`ignore` list (`none` = key absent, which matters at llm.py line 76 and
at `__main__.py` line 181). -/
structure Config where
  llm : LLMConfig := {}
  llm_max_log_length : Option Nat := none
  ignore : Option (List Rule) := none
  deriving DecidableEq, Repr

/-- The analysis dict: the LLM's parsed JSON reply, and the shape
`analyze_log` returns.  Each field is `none` when the key is absent;
`ignore_regex = some none` and `ignore_regex_name = some none` are the
respective key present with JSON null (a distinction `dict.get`
observes). -/
structure Analysis where
  is_anomaly : Option Bool := none
  reason : Option String := none
  ignore_regex : Option (Option String) := none
  ignore_regex_name : Option (Option String) := none
  deriving DecidableEq, Repr

/-- Outcome of the oracle call attempt (llm.py lines 48-61): an exception
anywhere in client construction, the network call or `json.loads`, or a
parsed JSON object. -/
inductive OracleOutcome where
  | failure (msg : String)
  | success (a : Analysis)
  deriving DecidableEq, Repr

/-- Python truthiness of an optional string: `None` and `""` are falsy. -/
def truthyStr : Option String → Bool
  | none => false
  | some s => !(s == "")

/-- Python f-string rendering of a possibly-None string value:
`str(None)` is the text None. -/
def pyFormat : Option String → String
  | none => "None"
  | some s => s

/-- Python `s[:k]`: for `k ≥ 0` the first `k` characters, for `k < 0`
everything up to `len(s) - |k|` (clamped at the start). -/
def pySlicePrefix (s : String) (k : Int) : String :=
  if 0 ≤ k then ⟨s.data.take k.toNat⟩
  else ⟨s.data.take (s.data.length - (-k).toNat)⟩

/-- The fixed truncation marker appended at llm.py line 45. -/
def trunc_marker : String := "::TRUNCATED"

/-- llm.py lines 44-45: truncate the entry before submission.  The guard
uses `config.get('llm_max_log_length', 256)` but the body indexes
`config['llm_max_log_length']` directly, so a long entry with the key
absent raises `KeyError`. -/
def truncateForLLM (log_entry : String) (config : Config) : Except String String :=
  if log_entry.length > config.llm_max_log_length.getD 256 then
    match config.llm_max_log_length with
    | some m =>
        .ok (pySlicePrefix log_entry ((m : Int) - (trunc_marker.length : Int)) ++ trunc_marker)
    | none => .error "KeyError: 'llm_max_log_length'"
  else .ok log_entry

/-- llm.py line 63: the three required keys of the LLM reply. -/
def requiredKeysPresent (a : Analysis) : Bool :=
  a.is_anomaly.isSome && a.reason.isSome && a.ignore_regex.isSome

/-- llm.py lines 66-71: the fail-safe analysis built in the `except` arm. -/
def failSafe (msg : String) : Analysis :=
  { is_anomaly := some true
    reason := some ("Error during LLM analysis: " ++ msg)
    ignore_regex := some none }

/-- llm.py lines 47-71: the analysis dict after the try/except — the
parsed reply when it carries all required keys, the fail-safe otherwise
(a missing key raises `ValueError("Invalid JSON response from LLM")`,
caught by the same `except`). -/
def normalizeOracle : OracleOutcome → Analysis
  | .failure msg => failSafe msg
  | .success a => if requiredKeysPresent a then a else failSafe "Invalid JSON response from LLM"

/-- llm.py lines 31-35: the verdict returned when the LLM is not
configured. -/
def notConfiguredAnalysis : Analysis :=
  { is_anomaly := some false
    reason := some "LLM is not configured. Skipping analysis."
    ignore_regex := some none }

/-- llm.py lines 76-82: walk the ignore list in stored order; on the first
rule whose regex search-matches the (possibly truncated) entry, force
`is_anomaly` to false and replace `reason` with the attribution string,
then stop. -/
def applyIgnoreOverride (matcher : String → String → Bool) (rules : List Rule)
    (log_entry : String) (a : Analysis) : Analysis :=
  match rules with
  | [] => a
  | r :: rest =>
      if matcher r.regex log_entry then
        { a with is_anomaly := some false
                 reason := some ("LLM analysis overridden by ignore rule '" ++ pyFormat r.name ++ "'") }
      else applyIgnoreOverride matcher rest log_entry a

/-- llm.py lines 16-84, `analyze_log(log_entry, config)`.  The early
not-configured return skips both truncation and the ignore-override loop;
on the configured path the entry is truncated, the oracle consulted on
the truncated text, the reply normalized, and the ignore loop (if the
`ignore` key exists) run against the truncated text. -/
def analyzeLog (matcher : String → String → Bool) (oracleFn : String → OracleOutcome)
    (log_entry : String) (config : Config) : Except String Analysis :=
  if !(truthyStr config.llm.api_key && truthyStr config.llm.model) then
    .ok notConfiguredAnalysis
  else
    match truncateForLLM log_entry config with
    | .error e => .error e
    | .ok entry' =>
        let analysis := normalizeOracle (oracleFn entry')
        match config.ignore with
        | none => .ok analysis
        | some rules => .ok (applyIgnoreOverride matcher rules entry' analysis)

/-- Literal substring search on the underlying character lists: the
semantics of `re.search` for patterns without metacharacters. -/
def startsWithSub : List Char → List Char → Bool
  | [], _ => true
  | _ :: _, [] => false
  | c :: p, d :: t => c == d && startsWithSub p t

/-- Whether `p` occurs contiguously inside `t`. -/
def infixSub (p : List Char) : List Char → Bool
  | [] => startsWithSub p []
  | d :: t => startsWithSub p (d :: t) || infixSub p t

/-- A concrete matcher: `substrMatch pat text` is `re.search(pat, text)`
restricted to metacharacter-free patterns. -/
def substrMatch (pattern text : String) : Bool :=
  infixSub pattern.data text.data

/-- config.py lines 23-37, `DEFAULT_CONFIG`, restricted to the modelled
keys: unconfigured `llm`, no `llm_max_log_length` key, empty `ignore`
list (the key is present). -/
def DEFAULT_CONFIG : Config :=
  { llm := { base_url := none, api_key := none, model := none }
    llm_max_log_length := none
    ignore := some [] }

/-- config.py lines 47-53, `load_config()`.  The file system is the
parameter: `none` when the config file does not exist (default config is
returned), `some c` its JSON-parsed content.  `json.load` does not
inspect the rules, so a present file is returned verbatim — no regex
compilation, no validation, no dropping of records. -/
def load_config (file : Option Config) : Config :=
  match file with
  | none => DEFAULT_CONFIG
  | some c => c

/-- The duplicate-name message of `__main__.py` line 182. -/
def dupNameMsg (name : String) : String :=
  "Error: Ignore rule with name '" ++ name ++ "' already exists."

/-- `__main__.py` lines 178-189, `ignore add NAME REGEX [--comment]`.
`conf['ignore']` is indexed directly, so a config without the key raises
`KeyError`; a rule with the same (case-sensitively equal) name aborts;
otherwise the new record is appended (the `comment` key only when the
option is a truthy string) and the config saved. -/
def ignore_add (name regex : String) (comment : Option String) (conf : Config) :
    Except String Config :=
  match conf.ignore with
  | none => .error "KeyError: 'ignore'"
  | some rules =>
      if rules.any (fun r => r.name == some name) then
        .error (dupNameMsg name)
      else
        let new_rule : Rule :=
          { name := some name, regex := regex
            comment := match comment with
                       | some c => if c == "" then none else some c
                       | none => none }
        .ok { conf with ignore := some (rules ++ [new_rule]) }

/-- The provenance comment both learning paths attach
(`__main__.py` lines 368 and 434): a 50-character prefix of the entry. -/
def autoComment (entry : String) : String :=
  "Auto-suggested by LLM for log: " ++ pySlicePrefix entry 50 ++ "..."

/-- The generated fallback rule name, from `int(time.time())` = `t`. -/
def fallbackName (t : Nat) : String :=
  "llm-suggested-" ++ toString t

/-- `__main__.py` lines 360-377: the learning step of the batch `analyze`
loop, as a function of the current time `t`, the entry, the analysis and
the in-memory ignore list.  Learning triggers on a truthy
`analysis.get('ignore_regex')` (present, non-null, non-empty); the rule
name is `analysis.get("ignore_regex_name", fallback)` — `dict.get`
defaults only on an absent key, so a present JSON-null suggested name is
copied verbatim and the rule is named None.  Returns the new list and
the added rule, if any. -/
def analyzeLearnStep (t : Nat) (entry : String) (analysis : Analysis)
    (ignore_list : List Rule) : List Rule × Option Rule :=
  match analysis.ignore_regex with
  | some (some new_regex) =>
      if new_regex == "" then (ignore_list, none)
      else if ignore_list.any (fun r => r.regex == new_regex) then (ignore_list, none)
      else
        let rule_name : Option String := analysis.ignore_regex_name.getD (some (fallbackName t))
        let new_rule : Rule :=
          { name := rule_name, regex := new_regex, comment := some (autoComment entry) }
        (ignore_list ++ [new_rule], some new_rule)
  | _ => (ignore_list, none)

/-- `__main__.py` lines 426-441: the learning step of the live `monitor`
loop.  Same trigger and dedup check as the batch step, but the rule name
is always the time-derived fallback (line 430 does not consult
`ignore_regex_name`). -/
def monitorLearnStep (t : Nat) (entry : String) (analysis : Analysis)
    (conf_ignore : List Rule) : List Rule × Option Rule :=
  match analysis.ignore_regex with
  | some (some new_regex) =>
      if new_regex == "" then (conf_ignore, none)
      else if conf_ignore.any (fun r => r.regex == new_regex) then (conf_ignore, none)
      else
        let new_rule : Rule :=
          { name := some (fallbackName t), regex := new_regex, comment := some (autoComment entry) }
        (conf_ignore ++ [new_rule], some new_rule)
  | _ => (conf_ignore, none)

/-! ### Concrete instances used by counterexamples and witnesses -/

/-- A configured LLM section (api_key and model set). -/
def llmConfigured : LLMConfig := { api_key := some "k", model := some "m" }

/-- Config for the C1 counterexample: max length 12 and a rule whose
pattern only occurs in the tail that truncation cuts off. -/
def cfgTailRule : Config :=
  { llm := llmConfigured, llm_max_log_length := some 12
    ignore := some [{ name := some "tail", regex := "Z" }] }

/-- A 13-character entry ending in the only character the rule matches. -/
def entryTailZ : String := "aaaaaaaaaaaaZ"

/-- An oracle reply flagging the entry as anomalous. -/
def oracleAnomalous : String → OracleOutcome :=
  fun _ => .success { is_anomaly := some true, reason := some "disk failure", ignore_regex := some none }

/-- Config with a configured LLM and one rule matching the literal x. -/
def cfgNoiseRule : Config :=
  { llm := llmConfigured, ignore := some [{ name := some "noise", regex := "x" }] }

/-- A 257-character entry: longer than the default bound 256. -/
def longEntry257 : String := ⟨List.replicate 257 'a'⟩

/-- Configured LLM but no llm_max_log_length key. -/
def cfgNoMaxKey : Config := { llm := llmConfigured }

/-- An oracle reply that is benign but suggests a pattern. -/
def oracleSuggesting : String → OracleOutcome :=
  fun _ => .success { is_anomaly := some true, reason := some "bad", ignore_regex := some (some "newpat") }

/-- The analysis `analyzeLog` produces in the C3 counterexample: verdict
overridden by the noise rule, suggested pattern retained. -/
def overriddenSuggesting : Analysis :=
  { is_anomaly := some false
    reason := some "LLM analysis overridden by ignore rule 'noise'"
    ignore_regex := some (some "newpat") }

/-- Config whose maximum length 5 is shorter than the marker. -/
def cfgMax5 : Config := { llm := llmConfigured, llm_max_log_length := some 5 }

/-- Config with maximum length 20. -/
def cfgMax20 : Config := { llm := llmConfigured, llm_max_log_length := some 20 }

/-- A 25-character entry. -/
def entry25 : String := ⟨List.replicate 25 'b'⟩

/-- Config with one empty-pattern rule, which search-matches every entry
(as re.search of an empty pattern does). -/
def cfgEmptyPatternRule : Config :=
  { llm := llmConfigured, ignore := some [{ name := some "n", regex := "" }] }

/-- Config with one rule whose pattern matches nothing in the witness entry. -/
def cfgUnmatchedRule : Config :=
  { llm := llmConfigured, ignore := some [{ name := some "quiet", regex := "zzz" }] }

/-- An oracle verdict carrying both a suggested pattern and a suggested name. -/
def verdictNamedSuggestion : Analysis :=
  { is_anomaly := some false, reason := some "ok"
    ignore_regex := some (some "pat"), ignore_regex_name := some (some "nice-name") }

/-- An oracle verdict whose suggested-name key is present but JSON null. -/
def verdictNullNamed : Analysis :=
  { is_anomaly := some false, reason := some "ok"
    ignore_regex := some (some "q"), ignore_regex_name := some none }

/-- A rule whose pattern does not compile as a regular expression
(an unterminated character set). -/
def badPatternRule : Rule := { name := some "broken", regex := "[" }

/-- A persisted config carrying the malformed-pattern rule. -/
def badPatternConfig : Config := { ignore := some [badPatternRule] }

/-- A persisted config with one well-formed rule. -/
def okFileConfig : Config := { ignore := some [{ name := some "a", regex := "x" }] }

/-! ### Helper lemmas shared by the claim theorems -/

/-- A `String` is its character list; lengths agree. -/
theorem string_length_data (s : String) : s.length = s.data.length := rfl

/-- Appending strings appends the character lists. -/
theorem string_data_append (s t : String) : (s ++ t).data = s.data ++ t.data := by
  cases s; cases t; rfl

/-- `pySlicePrefix` with a nonnegative bound is `List.take` underneath. -/
theorem pySlicePrefix_data_nonneg (s : String) (k : Int) (hk : 0 ≤ k) :
    (pySlicePrefix s k).data = s.data.take k.toNat := by
  unfold pySlicePrefix
  rw [if_pos hk]

/-- The truncation marker is 11 characters long. -/
theorem trunc_marker_length : trunc_marker.length = 11 := rfl

/-- The override loop returns its input unchanged when no rule matches. -/
theorem applyIgnoreOverride_of_none (matcher : String → String → Bool) (rules : List Rule)
    (s : String) (a : Analysis)
    (h : rules.find? (fun ru => matcher ru.regex s) = none) :
    applyIgnoreOverride matcher rules s a = a := by
  induction rules with
  | nil => rfl
  | cons hd tl ih =>
      rw [List.find?_cons] at h
      unfold applyIgnoreOverride
      cases hm : matcher hd.regex s with
      | true => rw [hm] at h; exact absurd h (by simp)
      | false => rw [hm] at h; simp only [Bool.false_eq_true, if_false]; exact ih h

/-- The override loop rewrites the verdict from the first matching rule. -/
theorem applyIgnoreOverride_of_find (matcher : String → String → Bool) (rules : List Rule)
    (s : String) (a : Analysis) (r : Rule)
    (h : rules.find? (fun ru => matcher ru.regex s) = some r) :
    applyIgnoreOverride matcher rules s a =
      { a with is_anomaly := some false
               reason := some ("LLM analysis overridden by ignore rule '" ++ pyFormat r.name ++ "'") } := by
  induction rules with
  | nil => simp [List.find?] at h
  | cons hd tl ih =>
      rw [List.find?_cons] at h
      unfold applyIgnoreOverride
      cases hm : matcher hd.regex s with
      | true =>
          rw [hm] at h
          simp only [if_true] at h ⊢
          cases h
          rfl
      | false =>
          rw [hm] at h
          simp only [Bool.false_eq_true, if_false] at h ⊢
          exact ih h

/-- The override loop never touches `ignore_regex` or `ignore_regex_name`. -/
theorem applyIgnoreOverride_frame (matcher : String → String → Bool) (rules : List Rule)
    (s : String) (a : Analysis) :
    (applyIgnoreOverride matcher rules s a).ignore_regex = a.ignore_regex ∧
    (applyIgnoreOverride matcher rules s a).ignore_regex_name = a.ignore_regex_name := by
  induction rules with
  | nil => exact ⟨rfl, rfl⟩
  | cons hd tl ih =>
      unfold applyIgnoreOverride
      cases hm : matcher hd.regex s with
      | true => exact ⟨rfl, rfl⟩
      | false => simpa using ih

/-- On the configured path `analyzeLog` submits exactly the truncated text
to the oracle and post-processes its outcome with the override loop. -/
theorem analyzeLog_configured (matcher : String → String → Bool)
    (oracleFn : String → OracleOutcome) (log_entry : String) (config : Config) (s : String)
    (hk : truthyStr config.llm.api_key = true) (hm : truthyStr config.llm.model = true)
    (ht : truncateForLLM log_entry config = .ok s) :
    analyzeLog matcher oracleFn log_entry config =
      .ok (match config.ignore with
           | none => normalizeOracle (oracleFn s)
           | some rules => applyIgnoreOverride matcher rules s (normalizeOracle (oracleFn s))) := by
  unfold analyzeLog
  rw [hk, hm, ht]
  simp only [Bool.and_self, Bool.not_true, Bool.false_eq_true, if_false]
  cases config.ignore <;> rfl

/-! ### C1 -/

/-- C1 counterexample: the rule `tail` (pattern `Z`, metacharacter-free, so
re.search is literal search) search-matches the entry, yet analyzeLog
returns the oracle's anomalous verdict untouched: the override loop runs
against the truncated text `a::TRUNCATED`, which the pattern no longer
matches.  So the claim as stated — a match against the entry forces
`is_anomaly = false` with the rule named in the reason — is false. -/
theorem override_misses_truncated_counterexample :
    cfgTailRule.ignore = some [{ name := "tail", regex := "Z" }] ∧
    substrMatch "Z" entryTailZ = true ∧
    analyzeLog substrMatch oracleAnomalous entryTailZ cfgTailRule =
      .ok { is_anomaly := some true, reason := some "disk failure", ignore_regex := some none } := by
  refine ⟨rfl, rfl, ?_⟩
  rfl

/-- C1 (amended): on the configured path, matching measured against the
text actually submitted (the possibly-truncated entry): whenever the
config has an ignore list whose first rule search-matching the submitted
text is `r`, the verdict has `is_anomaly = false` and its reason names
`r`, regardless of the oracle outcome. -/
theorem analyzeLog_first_match_override (matcher : String → String → Bool)
    (oracleFn : String → OracleOutcome) (log_entry : String) (config : Config)
    (rules : List Rule) (s : String) (r : Rule)
    (hk : truthyStr config.llm.api_key = true) (hm : truthyStr config.llm.model = true)
    (ht : truncateForLLM log_entry config = .ok s)
    (hi : config.ignore = some rules)
    (hf : rules.find? (fun ru => matcher ru.regex s) = some r) :
    analyzeLog matcher oracleFn log_entry config =
      .ok { normalizeOracle (oracleFn s) with
            is_anomaly := some false
            reason := some ("LLM analysis overridden by ignore rule '" ++ pyFormat r.name ++ "'") } := by
  rw [analyzeLog_configured matcher oracleFn log_entry config s hk hm ht, hi]
  show Except.ok (applyIgnoreOverride matcher rules s (normalizeOracle (oracleFn s))) = _
  rw [applyIgnoreOverride_of_find matcher rules s _ r hf]

/-- C1 witness: a short entry (no truncation) matching the single rule of
the config; the oracle fails, yet the verdict is the override. -/
theorem analyzeLog_first_match_override_witness :
    analyzeLog substrMatch (fun _ => .failure "boom") "x" cfgNoiseRule =
      .ok { is_anomaly := some false
            reason := some "LLM analysis overridden by ignore rule 'noise'"
            ignore_regex := some none } := by
  rw [analyzeLog_first_match_override substrMatch (fun _ => .failure "boom") "x" cfgNoiseRule
      [{ name := some "noise", regex := "x" }] "x" { name := some "noise", regex := "x" }
      rfl rfl rfl rfl rfl]
  rfl

/-! ### C2 -/

set_option maxRecDepth 4000 in
/-- C2 is a code bug: analyze_log is meant to be total (it never raises on
oracle failure, and the truncation guard itself defaults the missing key
to 256), but the truncation body indexes config with
`config['llm_max_log_length']`, so a 257-character entry under a config
without that key raises KeyError before any oracle call — for every
matcher and every oracle. -/
theorem analyzeLog_keyerror_missing_max_length (matcher : String → String → Bool)
    (oracleFn : String → OracleOutcome) :
    analyzeLog matcher oracleFn longEntry257 cfgNoMaxKey =
      .error "KeyError: 'llm_max_log_length'" := by
  rfl

/-! ### C10 -/

/-- C10: the override step modifies only the `is_anomaly` and `reason`
fields of the analysis; its other fields — the suggested pattern
`ignore_regex` and the suggested name `ignore_regex_name` — are returned
unchanged, whether or not any rule matched. -/
theorem override_modifies_only_verdict_fields (matcher : String → String → Bool)
    (rules : List Rule) (s : String) (a : Analysis) :
    (applyIgnoreOverride matcher rules s a).ignore_regex = a.ignore_regex ∧
    (applyIgnoreOverride matcher rules s a).ignore_regex_name = a.ignore_regex_name :=
  applyIgnoreOverride_frame matcher rules s a

/-! ### C3 -/

/-- C3 counterexample: entry `x` is overridden by the rule `noise` (the
verdict's reason is the attribution string, is_anomaly false), yet the
oracle's suggested pattern `newpat` is not discarded: the live-path learn
step adds a rule for it, and so does the batch-path learn step.  So on
an overridden entry learning does occur. -/
theorem overridden_entry_still_learns_counterexample :
    analyzeLog substrMatch oracleSuggesting "x" cfgNoiseRule = .ok overriddenSuggesting ∧
    monitorLearnStep 7 "x" overriddenSuggesting [{ name := some "noise", regex := "x" }] =
      ([{ name := some "noise", regex := "x" },
        { name := some "llm-suggested-7", regex := "newpat",
          comment := some "Auto-suggested by LLM for log: x..." }],
       some { name := some "llm-suggested-7", regex := "newpat",
              comment := some "Auto-suggested by LLM for log: x..." }) ∧
    analyzeLearnStep 7 "x" overriddenSuggesting [{ name := some "noise", regex := "x" }] =
      ([{ name := some "noise", regex := "x" },
        { name := some "llm-suggested-7", regex := "newpat",
          comment := some "Auto-suggested by LLM for log: x..." }],
       some { name := some "llm-suggested-7", regex := "newpat",
              comment := some "Auto-suggested by LLM for log: x..." }) := by
  exact ⟨rfl, rfl, rfl⟩

/-- C3 (amended): the override does not discard the oracle's suggested
pattern; both learn steps read only the ignore_regex and
ignore_regex_name fields, which the override preserves, so an overridden
verdict learns exactly like the unoverridden one in both the batch and
live paths. -/
theorem learn_steps_unaffected_by_override (matcher : String → String → Bool)
    (rules : List Rule) (s : String) (t : Nat) (entry : String) (a : Analysis)
    (l : List Rule) :
    analyzeLearnStep t entry (applyIgnoreOverride matcher rules s a) l =
      analyzeLearnStep t entry a l ∧
    monitorLearnStep t entry (applyIgnoreOverride matcher rules s a) l =
      monitorLearnStep t entry a l := by
  obtain ⟨h1, h2⟩ := applyIgnoreOverride_frame matcher rules s a
  constructor
  · unfold analyzeLearnStep
    rw [h1, h2]
  · unfold monitorLearnStep
    rw [h1]

/-! ### C4 -/

/-- C4 counterexample: with configured maximum length 5 the 6-character
entry `abcdef` exceeds the maximum, but the submitted text is the bare
11-character marker (Python's negative slice `entry[:5-11]` is empty), so
its length is 11, not the maximum 5. -/
theorem truncation_small_max_counterexample :
    ("abcdef" : String).length = 6 ∧
    truncateForLLM "abcdef" cfgMax5 = .ok "::TRUNCATED" ∧
    ("::TRUNCATED" : String).length = 11 := by
  exact ⟨rfl, rfl, rfl⟩

/-- C4 (amended): for a configured maximum length of at least the marker
length 11: an entry longer than the maximum is submitted with length
exactly the maximum and ending in the marker, an entry within the
maximum is submitted unmodified, and truncation happens before
submission — on the configured path analyzeLog consults the oracle
exactly on truncateForLLM's output. -/
theorem truncation_policy (config : Config) (m : Nat) (log_entry : String)
    (hm : config.llm_max_log_length = some m) (h11 : 11 ≤ m) :
    (log_entry.length ≤ m → truncateForLLM log_entry config = .ok log_entry) ∧
    (m < log_entry.length →
      ∃ s : String, truncateForLLM log_entry config = .ok s ∧ s.length = m ∧
        ∃ p : String, s = p ++ trunc_marker) ∧
    (∀ (matcher : String → String → Bool) (oracleFn : String → OracleOutcome) (s : String),
      truncateForLLM log_entry config = .ok s →
      truthyStr config.llm.api_key = true → truthyStr config.llm.model = true →
      analyzeLog matcher oracleFn log_entry config =
        .ok (match config.ignore with
             | none => normalizeOracle (oracleFn s)
             | some rules => applyIgnoreOverride matcher rules s (normalizeOracle (oracleFn s)))) := by
  refine ⟨?_, ?_, ?_⟩
  · intro hle
    unfold truncateForLLM
    rw [hm]
    simp only [Option.getD_some]
    rw [if_neg (by omega)]
  · intro hlt
    unfold truncateForLLM
    rw [hm]
    simp only [Option.getD_some]
    rw [if_pos (by omega)]
    refine ⟨_, rfl, ?_, ⟨_, rfl⟩⟩
    have hk : (0 : Int) ≤ (m : Int) - (trunc_marker.length : Int) := by
      rw [trunc_marker_length]
      omega
    rw [string_length_data, string_data_append, List.length_append,
        pySlicePrefix_data_nonneg _ _ hk, List.length_take]
    have hcast : ((m : Int) - (trunc_marker.length : Int)).toNat = m - 11 := by
      rw [trunc_marker_length]
      omega
    have hmark : trunc_marker.data.length = 11 := rfl
    have hdl : log_entry.data.length = log_entry.length := rfl
    rw [hcast, hmark, hdl]
    omega
  · intro matcher oracleFn s ht hk hmm
    exact analyzeLog_configured matcher oracleFn log_entry config s hk hmm ht

/-- C4 witness: maximum 20 — the 25-character entry is submitted at
length exactly 20 ending in the marker; the 2-character entry passes
unmodified. -/
theorem truncation_policy_witness :
    (∃ s : String, truncateForLLM entry25 cfgMax20 = .ok s ∧ s.length = 20 ∧
       ∃ p : String, s = p ++ trunc_marker) ∧
    truncateForLLM "ab" cfgMax20 = .ok "ab" := by
  refine ⟨(truncation_policy cfgMax20 20 entry25 rfl (by decide)).2.1 (by decide), ?_⟩
  exact (truncation_policy cfgMax20 20 "ab" rfl (by decide)).1 (by decide)

/-! ### C5 -/

/-- C5 counterexample: the oracle call fails, but a rule (here the
empty-pattern rule, which search-matches everything) matches the entry,
so the returned verdict has is_anomaly false — not the fail-safe true
the claim demands for every entry on oracle failure. -/
theorem oracle_failure_overridden_counterexample :
    analyzeLog substrMatch (fun _ => .failure "Connection refused") "x" cfgEmptyPatternRule =
      .ok { is_anomaly := some false
            reason := some "LLM analysis overridden by ignore rule 'n'"
            ignore_regex := some none } := by
  rfl

/-- C5 (amended): when the oracle call fails and no ignore rule matches
the submitted text, the gateway returns the fail-safe verdict —
is_anomaly true, reason embedding the failure detail, null suggested
pattern — and on an empty rule set the learn steps of both paths add no
rule from it. -/
theorem oracle_failure_fail_safe (matcher : String → String → Bool) (log_entry : String)
    (config : Config) (s msg : String) (t : Nat)
    (hk : truthyStr config.llm.api_key = true) (hm : truthyStr config.llm.model = true)
    (ht : truncateForLLM log_entry config = .ok s)
    (hno : ∀ rules, config.ignore = some rules →
             rules.find? (fun ru => matcher ru.regex s) = none) :
    analyzeLog matcher (fun _ => .failure msg) log_entry config = .ok (failSafe msg) ∧
    (failSafe msg).is_anomaly = some true ∧
    (failSafe msg).reason = some ("Error during LLM analysis: " ++ msg) ∧
    (failSafe msg).ignore_regex = some none ∧
    analyzeLearnStep t log_entry (failSafe msg) [] = ([], none) ∧
    monitorLearnStep t log_entry (failSafe msg) [] = ([], none) := by
  refine ⟨?_, rfl, rfl, rfl, rfl, rfl⟩
  rw [analyzeLog_configured matcher (fun _ => .failure msg) log_entry config s hk hm ht]
  cases hi : config.ignore with
  | none => rfl
  | some rules =>
      show Except.ok (applyIgnoreOverride matcher rules s
        (normalizeOracle ((fun _ => OracleOutcome.failure msg) s))) = _
      rw [applyIgnoreOverride_of_none matcher rules s _ (hno rules hi)]
      rfl

/-- C5 witness: one non-matching rule, oracle fails with boom — the
fail-safe verdict comes back. -/
theorem oracle_failure_fail_safe_witness :
    analyzeLog substrMatch (fun _ => .failure "boom") "x" cfgUnmatchedRule =
      .ok (failSafe "boom") := by
  exact (oracle_failure_fail_safe substrMatch "x" cfgUnmatchedRule "x" "boom" 0 rfl rfl rfl
    (by intro rules h; injection h with h; subst h; rfl)).1

/-! ### C6 -/

/-- C6 counterexample: the oracle provided the suggested name nice-name,
yet the live-path learn step names the new rule with the time-derived
fallback llm-suggested-99 — the suggested name is not used on the live
path. -/
theorem monitor_ignores_suggested_name_counterexample :
    verdictNamedSuggestion.ignore_regex_name = some (some "nice-name") ∧
    monitorLearnStep 99 "entry" verdictNamedSuggestion [] =
      ([{ name := some "llm-suggested-99", regex := "pat",
          comment := some "Auto-suggested by LLM for log: entry..." }],
       some { name := some "llm-suggested-99", regex := "pat",
              comment := some "Auto-suggested by LLM for log: entry..." }) ∧
    (some "llm-suggested-99" : Option String) ≠ some "nice-name" := by
  exact ⟨rfl, rfl, by decide⟩

/-- C6 (amended): for a verdict carrying a non-empty suggested pattern p:
if some rule already has exactly pattern p, neither path adds a rule;
otherwise each path grows the list by exactly one rule with pattern p and
a comment holding the bounded (50-character) prefix of the entry — named,
in the batch path, by `dict.get` over the suggested-name key (its value
when the key is present, even a JSON null, which names the rule None;
the time fallback only when the key is absent), and always the time
fallback in the live path. -/
theorem learn_step_growth_spec (t : Nat) (entry : String) (a : Analysis) (p : String)
    (l : List Rule) (hp : a.ignore_regex = some (some p)) (hne : p ≠ "") :
    ((∃ r ∈ l, r.regex = p) →
       analyzeLearnStep t entry a l = (l, none) ∧ monitorLearnStep t entry a l = (l, none)) ∧
    ((∀ r ∈ l, r.regex ≠ p) →
       analyzeLearnStep t entry a l =
         (l ++ [{ name := a.ignore_regex_name.getD (some (fallbackName t)), regex := p
                  comment := some (autoComment entry) }],
          some { name := a.ignore_regex_name.getD (some (fallbackName t)), regex := p
                 comment := some (autoComment entry) }) ∧
       monitorLearnStep t entry a l =
         (l ++ [{ name := some (fallbackName t), regex := p, comment := some (autoComment entry) }],
          some { name := some (fallbackName t), regex := p, comment := some (autoComment entry) })) := by
  have hne' : (p == "") = false := by
    rw [beq_eq_false_iff_ne]
    exact hne
  constructor
  · rintro ⟨r, hr, hrp⟩
    have hany : l.any (fun ru => ru.regex == p) = true := by
      rw [List.any_eq_true]
      exact ⟨r, hr, by simp [hrp]⟩
    constructor
    · unfold analyzeLearnStep
      rw [hp]
      simp [hne', hany]
    · unfold monitorLearnStep
      rw [hp]
      simp [hne', hany]
  · intro hall
    have hany : l.any (fun ru => ru.regex == p) = false := by
      rw [List.any_eq_false]
      intro r hr
      simp [hall r hr]
    constructor
    · unfold analyzeLearnStep
      rw [hp]
      simp [hne', hany]
    · unfold monitorLearnStep
      rw [hp]
      simp [hne', hany]

/-- C6 witness: with the pattern absent from the list, the batch path
adds one rule named from the present suggested name and the live path
one named from the fallback; with a present-but-null suggested name the
batch path adds a rule whose name is the JSON null; with the pattern
already present, nothing is added. -/
theorem learn_step_growth_spec_witness :
    (analyzeLearnStep 5 "e" verdictNamedSuggestion [{ name := some "r1", regex := "pat" }] =
       ([{ name := some "r1", regex := "pat" }], none) ∧
     monitorLearnStep 5 "e" verdictNamedSuggestion [{ name := some "r1", regex := "pat" }] =
       ([{ name := some "r1", regex := "pat" }], none)) ∧
    analyzeLearnStep 5 "e" verdictNamedSuggestion [] =
      ([{ name := some "nice-name", regex := "pat", comment := some (autoComment "e") }],
       some { name := some "nice-name", regex := "pat", comment := some (autoComment "e") }) ∧
    analyzeLearnStep 5 "e" verdictNullNamed [] =
      ([{ name := none, regex := "q", comment := some (autoComment "e") }],
       some { name := none, regex := "q", comment := some (autoComment "e") }) ∧
    monitorLearnStep 5 "e" verdictNullNamed [] =
      ([{ name := some "llm-suggested-5", regex := "q", comment := some (autoComment "e") }],
       some { name := some "llm-suggested-5", regex := "q", comment := some (autoComment "e") }) := by
  refine ⟨?_, ?_, ?_, ?_⟩
  · exact (learn_step_growth_spec 5 "e" verdictNamedSuggestion "pat"
      [{ name := some "r1", regex := "pat" }] rfl (by decide)).1
      ⟨{ name := some "r1", regex := "pat" }, by simp, rfl⟩
  · exact ((learn_step_growth_spec 5 "e" verdictNamedSuggestion "pat" [] rfl (by decide)).2
      (by simp)).1
  · exact ((learn_step_growth_spec 5 "e" verdictNullNamed "q" [] rfl (by decide)).2
      (by simp)).1
  · exact ((learn_step_growth_spec 5 "e" verdictNullNamed "q" [] rfl (by decide)).2
      (by simp)).2

/-! ### C7 -/

/-- C7 counterexample: a persisted rule set holding a rule whose pattern
is the non-compiling regex (an unterminated character set) loads
successfully and verbatim — no configuration error is reported and the
rule is returned intact, so the load does not fail closed. -/
theorem load_config_accepts_bad_pattern_counterexample :
    load_config (some badPatternConfig) = badPatternConfig ∧
    (load_config (some badPatternConfig)).ignore = some [badPatternRule] ∧
    badPatternRule.regex = "[" := by
  exact ⟨rfl, rfl, rfl⟩

/-- C7 (amended): loading performs no pattern validation at all — a
present config file is returned verbatim with every rule preserved
(none dropped, no error), whatever its pattern strings; a missing file
yields the default config.  A malformed pattern surfaces only later,
when the rule is used for matching. -/
theorem load_config_verbatim (c : Config) (rules : List Rule) (hc : c.ignore = some rules) :
    load_config (some c) = c ∧ (load_config (some c)).ignore = some rules ∧
    load_config none = DEFAULT_CONFIG := by
  exact ⟨rfl, hc, rfl⟩

/-- C7 witness: a well-formed one-rule file round-trips verbatim. -/
theorem load_config_verbatim_witness :
    load_config (some okFileConfig) = okFileConfig ∧
    (load_config (some okFileConfig)).ignore = some [{ name := some "a", regex := "x" }] ∧
    load_config none = DEFAULT_CONFIG :=
  load_config_verbatim okFileConfig [{ name := some "a", regex := "x" }] rfl

/-! ### C8 -/

/-- C8: with the ignore key present, ignore add fails with the
duplicate-name error exactly when a rule with the same (case-sensitive)
name is already present — and on failure no updated config is produced,
so the rule set is unchanged; otherwise it succeeds, appending exactly
the new rule, in particular when the new pattern equals an existing
rule's pattern under a different name. -/
theorem ignore_add_duplicate_name_iff (conf : Config) (rules : List Rule)
    (name regex : String) (comment : Option String) (hc : conf.ignore = some rules) :
    (ignore_add name regex comment conf = .error (dupNameMsg name) ↔ ∃ r ∈ rules, r.name = some name) ∧
    ((∀ r ∈ rules, r.name ≠ some name) →
      ignore_add name regex comment conf =
        .ok { conf with ignore := some (rules ++
          [{ name := some name, regex := regex
             comment := match comment with
                        | some c => if c == "" then none else some c
                        | none => none }]) }) := by
  have hred : ignore_add name regex comment conf =
      (if rules.any (fun r => r.name == some name) then Except.error (dupNameMsg name)
       else Except.ok { conf with ignore := some (rules ++
         [{ name := some name, regex := regex
            comment := match comment with
                       | some c => if c == "" then none else some c
                       | none => none }]) }) := by
    unfold ignore_add
    rw [hc]
  by_cases hany : rules.any (fun r => r.name == some name) = true
  · rw [if_pos hany] at hred
    have hex : ∃ r ∈ rules, r.name = some name := by
      rw [List.any_eq_true] at hany
      obtain ⟨r, hr, hrb⟩ := hany
      exact ⟨r, hr, by simpa using hrb⟩
    refine ⟨⟨fun _ => hex, fun _ => hred⟩, ?_⟩
    intro hall
    obtain ⟨r, hr, hrn⟩ := hex
    exact absurd hrn (hall r hr)
  · rw [if_neg hany] at hred
    refine ⟨⟨fun h => ?_, fun hex => ?_⟩, fun _ => hred⟩
    · rw [hred] at h
      exact Except.noConfusion h
    · exfalso
      apply hany
      rw [List.any_eq_true]
      obtain ⟨r, hr, hrn⟩ := hex
      exact ⟨r, hr, by simp [hrn]⟩

/-- C8 witness: with one rule named a of pattern x, adding b with the
same pattern x succeeds and appends it; adding a again fails with the
duplicate-name error. -/
theorem ignore_add_duplicate_name_iff_witness :
    ignore_add "b" "x" none okFileConfig =
      .ok { okFileConfig with
            ignore := some ([{ name := some "a", regex := "x" }] ++ [{ name := some "b", regex := "x" }]) } ∧
    ignore_add "a" "y" none okFileConfig = .error (dupNameMsg "a") := by
  constructor
  · exact (ignore_add_duplicate_name_iff okFileConfig [{ name := some "a", regex := "x" }]
      "b" "x" none rfl).2 (by decide)
  · exact (ignore_add_duplicate_name_iff okFileConfig [{ name := some "a", regex := "x" }]
      "a" "y" none rfl).1.mpr ⟨{ name := some "a", regex := "x" }, by simp, rfl⟩

/-! ### C9 -/

/-- C9: when the api_key or the model is absent or empty (Python-falsy),
analyzeLog returns the fixed not-configured verdict — is_anomaly false,
the fixed explanatory reason, null suggested pattern — for every matcher
and every oracle function alike, so no network call is attempted (the
result does not depend on the oracle at all). -/
theorem not_configured_fixed_verdict (matcher : String → String → Bool)
    (oracleFn : String → OracleOutcome) (log_entry : String) (config : Config)
    (h : truthyStr config.llm.api_key = false ∨ truthyStr config.llm.model = false) :
    analyzeLog matcher oracleFn log_entry config = .ok notConfiguredAnalysis ∧
    notConfiguredAnalysis.is_anomaly = some false ∧
    notConfiguredAnalysis.reason = some "LLM is not configured. Skipping analysis." ∧
    notConfiguredAnalysis.ignore_regex = some none := by
  refine ⟨?_, rfl, rfl, rfl⟩
  unfold analyzeLog
  rcases h with h | h
  · rw [h]
    rfl
  · rw [h, Bool.and_false]
    rfl

/-- C9 witness: the default (unconfigured) config with a failing oracle
still yields the fixed not-configured verdict. -/
theorem not_configured_fixed_verdict_witness :
    analyzeLog substrMatch (fun _ => .failure "net down") "boot error" DEFAULT_CONFIG =
      .ok notConfiguredAnalysis :=
  (not_configured_fixed_verdict substrMatch (fun _ => .failure "net down") "boot error"
    DEFAULT_CONFIG (Or.inl rfl)).1

end Whistle
